import Mathlib

/-!
# Verification of the fitstream-backend session/booking subsystem

Shallow embedding of the data model and operations of the fitstream
backend (models/Session.js, models/User.js, controllers/sessionController.js,
controllers/streamController.js, controllers/userController.js,
controllers/packageController.js, services/agoraService.js), together with
theorems about the session state machine, booking/refund flow, rating flow,
participant join/leave tracking, analytics and credential minting.

Modelling conventions:
* Mongo object ids are modelled as natural numbers (`Nat`), timestamps as
  natural numbers in milliseconds (for the RTC service, in seconds, matching
  the source's `Math.floor(Date.now() / 1000)`).
* A user's token balance is an `Int` so that non-negativity is a theorem and
  not a typing artifact; session token costs and package token amounts are
  `Nat` (counts of tokens, schema default 1 resp. admin-entered amounts).
* JavaScript truthiness guards on numbers/strings (`if (title)`,
  `if (tokenCost)`, `if (feedback)`) are modelled explicitly: an optional
  value updates only when present and non-zero / non-empty.
* Controller handlers return a record carrying the HTTP status code, the
  response message and the (possibly updated) documents; an early `return`
  before any `save` in the source corresponds to returning the input
  documents unchanged.
* The `createdAt`/`updatedAt` bookkeeping touched by the mongoose `pre-save`
  middleware is orthogonal to every claim and is not modelled.
* The module `controllers/streamController.js` assigns `exports.joinStream`
  and `exports.leaveStream` twice; under CommonJS semantics the later
  assignment wins, so the embedded `joinStream`/`leaveStream` follow the
  second definitions (lines 1091-1139 and 1142-1163).
-/

namespace Fitstream

/-- Session lifecycle status (`Session.js`, the `status` enum field). -/
inductive Status
  | scheduled
  | live
  | completed
  | cancelled
  deriving DecidableEq, Repr

/-- One entry of `session.participants` (Session.js lines 48-71).
`duration` is the accumulated watch time **in seconds** (schema comment). -/
structure Participant where
  userId : Nat
  joinedAt : Option Nat := none
  leaveAt : Option Nat := none
  duration : Option Nat := none
  messages : Nat := 0
  reactions : Nat := 0
  deriving DecidableEq, Repr

/-- One entry of `session.ratings` (Session.js lines 95-110). -/
structure RatingEntry where
  userId : Nat
  rating : ℚ
  feedback : Option String
  createdAt : Nat
  deriving DecidableEq, Repr

/-- The `session.streamingDetails` sub-document (Session.js lines 80-88). -/
structure StreamingDetails where
  channelName : Option String := none
  resourceId : Option String := none
  sid : Option String := none
  startedAt : Option Nat := none
  endedAt : Option Nat := none
  deriving DecidableEq, Repr

/-- The Session document (models/Session.js).  `duration` is the scheduled
length **in minutes** (schema comment); chat messages and reactions are kept
as plain counts of entries, which is all the embedded claims consume. -/
structure Session where
  id : Nat
  title : String
  description : String
  trainer : Nat
  category : String
  difficulty : String
  scheduledAt : Nat
  duration : Nat
  tokenCost : Nat
  maxParticipants : Nat
  participants : List Participant := []
  status : Status := .scheduled
  streamingDetails : StreamingDetails := {}
  ratings : List RatingEntry := []
  averageRating : ℚ := 0
  deriving DecidableEq, Repr

/-- One entry of `user.bookedSessions` (models/User.js lines 37-45). -/
structure Booking where
  session : Nat
  bookedAt : Nat
  deriving DecidableEq, Repr

/-- The User document (models/User.js), restricted to the fields the
session/booking/token flows read or write.  `completedSessions` and the
trainer profile are written only on paths no claim depends on. -/
structure User where
  id : Nat
  role : String
  tokens : Int
  bookedSessions : List Booking := []
  deriving DecidableEq, Repr

/-- A purchasable token package (models/Package.js fields read by
`purchasePackage`). -/
structure Package where
  id : Nat
  name : String
  tokenAmount : Nat
  price : ℚ
  active : Bool
  isPromotion : Bool
  validUntil : Option Nat
  deriving DecidableEq, Repr

/-! ## Session instance methods (models/Session.js) -/

/-- Update the first element of a list satisfying a predicate, mirroring the
source pattern `findIndex` followed by in-place mutation at that index. -/
def updateFirst {α : Type} (p : α → Bool) (f : α → α) : List α → List α
  | [] => []
  | x :: xs => if p x then f x :: xs else x :: updateFirst p f xs

/-- Round a rational to one decimal place; embeds the source's
`(sum / count).toFixed(1)` on non-negative means. -/
def roundTenth (q : ℚ) : ℚ := ((round (10 * q) : ℤ) : ℚ) / 10

/-- The one-decimal average of a list of rating entries, 0 when empty. -/
def avgRating (l : List RatingEntry) : ℚ :=
  if l.isEmpty then 0
  else roundTenth ((l.map RatingEntry.rating).sum / (l.length : ℚ))

/-- `sessionSchema.methods.calculateAverageRating` (Session.js 170-178). -/
def Session.calculateAverageRating (s : Session) : Session :=
  { s with averageRating := avgRating s.ratings }

/-- `sessionSchema.methods.recordParticipantJoin` (Session.js 181-202):
update the first matching participant's join time, clearing any previous
leave time; push a fresh record otherwise. -/
def Session.recordParticipantJoin (s : Session) (userId : Nat) (now : Nat) : Session :=
  if s.participants.any (fun p => p.userId == userId) then
    let ps := updateFirst (fun p => p.userId == userId)
      (fun p => { p with joinedAt := some now, leaveAt := none }) s.participants
    { s with participants := ps }
  else
    let fresh : Participant := { userId := userId, joinedAt := some now, messages := 0, reactions := 0 }
    { s with participants := s.participants ++ [fresh] }

/-- `sessionSchema.methods.recordParticipantLeave` (Session.js 205-222):
when the first matching participant has a join timestamp, stamp the leave
time and add the elapsed seconds since the last join onto the accumulated
duration (`existingDuration + Math.floor((now - joinTime) / 1000)`). -/
def Session.recordParticipantLeave (s : Session) (userId : Nat) (now : Nat) : Session :=
  match s.participants.find? (fun p => p.userId == userId) with
  | none => s
  | some p =>
    match p.joinedAt with
    | none => s
    | some j =>
      let ps := updateFirst (fun q => q.userId == userId)
        (fun q => { q with leaveAt := some now,
                           duration := some (q.duration.getD 0 + (now - j) / 1000) })
        s.participants
      { s with participants := ps }

/-! ## RTC credential service (services/agoraService.js) -/

/-- The configuration state of the `AgoraService` singleton: `configured`
is `!!process.env.AGORA_APP_ID && !!process.env.AGORA_APP_CERTIFICATE`. -/
structure AgoraConfig where
  configured : Bool
  appId : String
  appCertificate : String
  deriving DecidableEq, Repr

/-- An RTC credential: either the fixed degraded-mode placeholder string or
a token built by the external token builder from the arguments the service
passes it (the builder itself is an external collaborator). -/
inductive RtcToken
  | placeholder (value : String)
  | built (appId : String) (appCertificate : String) (channelName : String)
      (uid : Nat) (isPublisher : Bool) (privilegeExpireTime : Nat)
  deriving DecidableEq, Repr

/-- The fixed credential returned when the RTC service is unconfigured. -/
def placeholderTokenValue : String := "placeholder-token-agora-not-configured"

/-- `AgoraService.generateToken` (agoraService.js 28-52): placeholder when
unconfigured, otherwise a token expiring `expireTime` seconds after the
current time, with publisher role exactly for the role string "publisher". -/
def generateToken (cfg : AgoraConfig) (channelName : String) (uid : Nat)
    (role : String) (expireTime : Nat) (nowSec : Nat) : RtcToken :=
  if cfg.configured = false then .placeholder placeholderTokenValue
  else .built cfg.appId cfg.appCertificate channelName uid
    (decide (role = "publisher")) (nowSec + expireTime)

/-- Channel name derivation: the template literal `session_${sessionId}`. -/
def channelNameOf (sessionId : String) : String := "session_" ++ sessionId

/-- Return value of `AgoraService.createChannel`. -/
structure ChannelDetails where
  channelName : String
  hostToken : RtcToken
  appId : String
  deriving DecidableEq, Repr

/-- `AgoraService.createChannel` (agoraService.js 60-78): host token for the
trainer with a 24-hour window (`24 * 3600` seconds). -/
def createChannel (cfg : AgoraConfig) (sessionId : String) (trainerId : Nat)
    (nowSec : Nat) : ChannelDetails :=
  { channelName := channelNameOf sessionId
    hostToken := generateToken cfg (channelNameOf sessionId) trainerId ("publisher") (24 * 3600) nowSec
    appId := cfg.appId }

/-- Return value of `AgoraService.generateViewerToken`. -/
structure ViewerDetails where
  channelName : String
  viewerToken : RtcToken
  appId : String
  deriving DecidableEq, Repr

/-- `AgoraService.generateViewerToken` (agoraService.js 86-100): viewer token
with a 3-hour window (`3 * 3600` seconds). -/
def generateViewerToken (cfg : AgoraConfig) (sessionId : String) (userId : Nat)
    (nowSec : Nat) : ViewerDetails :=
  { channelName := channelNameOf sessionId
    viewerToken := generateToken cfg (channelNameOf sessionId) userId ("subscriber") (3 * 3600) nowSec
    appId := cfg.appId }

/-- `AgoraService.updateSessionStreamStatus` (agoraService.js 109-135):
set the status; on `live` stamp the stream start and channel name, on
`completed` stamp the stream end. -/
def updateSessionStreamStatus (s : Session) (st : Status)
    (channelName : Option String) (nowMs : Nat) : Session :=
  if st = .live then
    { s with status := st
             streamingDetails := { s.streamingDetails with
               startedAt := some nowMs, channelName := channelName } }
  else if st = .completed then
    { s with status := st
             streamingDetails := { s.streamingDetails with endedAt := some nowMs } }
  else { s with status := st }

/-! ## Session controller (controllers/sessionController.js) -/

/-- Whether the user already holds a booking reference to the session
(the `alreadyBooked` check in `bookSession`, lines 210-212). -/
def alreadyBooked (u : User) (s : Session) : Bool :=
  u.bookedSessions.any (fun b => b.session == s.id)

/-- Result of the book-session handler: HTTP status, message and the user
and session documents as left in the store. -/
structure BookResult where
  status : Nat
  message : String
  user : User
  session : Session
  deriving Repr

/-- `exports.bookSession` (sessionController.js 190-243), for an existing
session and user.  Checks, in source order: past schedule, cancelled status,
duplicate booking, capacity (0 = unlimited), token balance; on success debit
the cost, append the booking reference and append a participant record. -/
def bookSession (s : Session) (u : User) (now : Nat) : BookResult :=
  if s.scheduledAt < now then
    { status := 400, message := "Cannot book past sessions", user := u, session := s }
  else if s.status = .cancelled then
    { status := 400, message := "This session has been cancelled", user := u, session := s }
  else if alreadyBooked u s then
    { status := 400, message := "Session already booked", user := u, session := s }
  else if 0 < s.maxParticipants ∧ s.maxParticipants ≤ s.participants.length then
    { status := 400, message := "Session is full", user := u, session := s }
  else if u.tokens < (s.tokenCost : Int) then
    { status := 400, message := "Insufficient tokens", user := u, session := s }
  else
    let u2 : User := { u with
      tokens := u.tokens - (s.tokenCost : Int)
      bookedSessions := u.bookedSessions ++ [{ session := s.id, bookedAt := now }] }
    let s2 : Session := { s with participants := s.participants ++ [{ userId := u.id }] }
    { status := 200, message := "Session booked successfully", user := u2, session := s2 }

/-- Result of a handler that returns only the session document. -/
structure SessResult where
  status : Nat
  message : String
  session : Session
  deriving Repr

/-- `exports.rateSession` (sessionController.js 246-350), session-side
effect.  The rating must be in [1,5] (`!rating || rating < 1 || rating > 5`),
the session completed, the rater a recorded participant; a resubmission
updates the existing entry in place, overwriting the feedback only when the
new call provides one (`if (feedback) r.feedback = feedback`); the average
rating is recomputed before saving.  The user-document and trainer-aggregate
side effects touch no field any claim reads. -/
def rateSession (s : Session) (userId : Nat) (rating : ℚ) (feedback : Option String)
    (now : Nat) : SessResult :=
  if rating < 1 ∨ 5 < rating then
    { status := 400, message := "Rating must be between 1 and 5", session := s }
  else if s.status ≠ .completed then
    { status := 400, message := "Can only rate completed sessions", session := s }
  else if ¬ s.participants.any (fun p => p.userId == userId) then
    { status := 403, message := "You must participate in the session to rate it", session := s }
  else
    let s2 :=
      if s.ratings.any (fun r => r.userId == userId) then
        let rs := s.ratings.map (fun r =>
          if r.userId == userId then
            { r with rating := rating
                     feedback := match feedback with | some f => some f | none => r.feedback
                     createdAt := now }
          else r)
        { s with ratings := rs }
      else
        { s with ratings := s.ratings ++ [{ userId := userId, rating := rating, feedback := feedback, createdAt := now }] }
    let s3 := s2.calculateAverageRating
    { status := 200, message := "Session rated successfully", session := s3 }

/-- Result of the status-update handler: it also rewrites the user documents
holding bookings when a session is cancelled. -/
structure StatusResult where
  status : Nat
  message : String
  session : Session
  users : List User
  deriving Repr

/-- The cancel-triggered refund applied to one booked user
(sessionController.js 403-411): credit back the token cost and drop every
booking reference to this session. -/
def refundUser (s : Session) (u : User) : User :=
  { u with tokens := u.tokens + (s.tokenCost : Int)
           bookedSessions := u.bookedSessions.filter (fun b => b.session ≠ s.id) }

/-- `exports.updateSessionStatus` (sessionController.js 368-422).  The target
status string must be "scheduled" or "cancelled"; only the owning trainer or
an admin may call; live and completed sessions reject any change; on
cancellation every user holding a booking reference is refunded.  `users` is
the user collection (the `User.find` loads exactly the booked ones). -/
def updateSessionStatus (s : Session) (requesterId : Nat) (requesterRole : String)
    (target : String) (users : List User) : StatusResult :=
  if target ≠ "scheduled" ∧ target ≠ "cancelled" then
    { status := 400, message := "Invalid status", session := s, users := users }
  else if s.trainer ≠ requesterId ∧ requesterRole ≠ "admin" then
    { status := 403, message := "Not authorized to update this session", session := s, users := users }
  else if s.status = .live ∨ s.status = .completed then
    { status := 400, message := "Cannot change status of this session", session := s, users := users }
  else
    let newStatus : Status := if target = "cancelled" then .cancelled else .scheduled
    let s2 := { s with status := newStatus }
    let users2 :=
      if target = "cancelled" then
        users.map (fun u => if u.bookedSessions.any (fun b => b.session == s.id) then refundUser s u else u)
      else users
    let msg := if target = "cancelled" then "Session cancelled successfully" else "Session updated successfully"
    { status := 200, message := msg, session := s2, users := users2 }

/-- The update-session request body (sessionController.js 128-140); `none`
models an absent field. -/
structure UpdateBody where
  title : Option String := none
  description : Option String := none
  category : Option String := none
  difficulty : Option String := none
  scheduledAt : Option Nat := none
  duration : Option Nat := none
  tokenCost : Option Nat := none
  maxParticipants : Option Nat := none
  status : Option Status := none
  deriving Repr

/-- JavaScript truthiness for an optional string field update (`if (title)`):
update only when present and non-empty. -/
def applyStr (cur : String) (o : Option String) : String :=
  match o with
  | some v => if v ≠ "" then v else cur
  | none => cur

/-- JavaScript truthiness for an optional numeric field update
(`if (duration)`): update only when present and non-zero. -/
def applyPos (cur : Nat) (o : Option Nat) : Nat :=
  match o with
  | some v => if v ≠ 0 then v else cur
  | none => cur

/-- `exports.updateSession` (sessionController.js 109-160).  Only the owning
trainer or an admin; live/completed sessions reject every update; each body
field overwrites under its truthiness guard, `maxParticipants` under an
`!== undefined` guard, and the status field only when it is neither "live"
nor "completed".  A body status that is not a legal enum value would be
rejected by the schema on save and is therefore not modelled. -/
def updateSession (s : Session) (requesterId : Nat) (requesterRole : String)
    (body : UpdateBody) : SessResult :=
  if s.trainer ≠ requesterId ∧ requesterRole ≠ "admin" then
    { status := 403, message := "Not authorized to update this session", session := s }
  else if s.status = .live ∨ s.status = .completed then
    { status := 400, message := "Cannot update this session", session := s }
  else
    let newStatus :=
      match body.status with
      | some st => if st ≠ .live ∧ st ≠ .completed then st else s.status
      | none => s.status
    let s2 : Session :=
      { s with title := applyStr s.title body.title
               description := applyStr s.description body.description
               category := applyStr s.category body.category
               difficulty := applyStr s.difficulty body.difficulty
               scheduledAt := (applyPos s.scheduledAt body.scheduledAt)
               duration := applyPos s.duration body.duration
               tokenCost := applyPos s.tokenCost body.tokenCost
               maxParticipants := body.maxParticipants.getD s.maxParticipants
               status := newStatus }
    { status := 200, message := "Session updated", session := s2 }

/-! ## Stream controller (controllers/streamController.js) -/

/-- `exports.startStream` (streamController.js, sessionController.js
concatenation lines 691-746): only the assigned trainer, not already live,
not cancelled/completed; creates the RTC channel and moves the session to
`live` through `updateSessionStreamStatus`. -/
def startStream (cfg : AgoraConfig) (s : Session) (userId : Nat) (nowMs : Nat) : SessResult :=
  if s.trainer ≠ userId then
    { status := 403, message := "Only the assigned trainer can start this stream", session := s }
  else if s.status = .live then
    { status := 400, message := "Session is already live", session := s }
  else if s.status = .cancelled ∨ s.status = .completed then
    { status := 400, message := "Cannot start this session", session := s }
  else
    let ch := createChannel cfg (toString s.id) userId (nowMs / 1000)
    let s2 := updateSessionStreamStatus s .live (some ch.channelName) nowMs
    { status := 200, message := "Stream started successfully", session := s2 }

/-- `exports.endStream` (lines 749-789): only the assigned trainer, only from
`live`; stops any active recording (an external effect) and moves the session
to `completed`. -/
def endStream (s : Session) (userId : Nat) (nowMs : Nat) : SessResult :=
  if s.trainer ≠ userId then
    { status := 403, message := "Only the assigned trainer can end this stream", session := s }
  else if s.status ≠ .live then
    { status := 400, message := "Session is not currently live", session := s }
  else
    { status := 200, message := "Stream ended successfully"
      session := updateSessionStreamStatus s .completed none nowMs }

/-- The **effective** `exports.joinStream` (lines 1091-1139; the earlier
definition at 792-859, which also checked booking membership, is overwritten
by this later assignment).  It checks only that the session is live, records
the join for every authenticated requester, and answers with a credential
payload (orthogonal to the session state). -/
def joinStream (s : Session) (userId : Nat) (now : Nat) : SessResult :=
  if s.status ≠ .live then
    { status := 400, message := "Session is not currently live", session := s }
  else
    { status := 200, message := "Joined stream successfully"
      session := s.recordParticipantJoin userId now }

/-- The **effective** `exports.leaveStream` (lines 1142-1163; the earlier
no-op definition at 862-876 is overwritten): record the leave and answer
success, with no status or membership precondition. -/
def leaveStream (s : Session) (userId : Nat) (now : Nat) : SessResult :=
  { status := 200, message := "Left stream successfully"
    session := s.recordParticipantLeave userId now }

/-! ## Analytics (exports.getSessionAnalytics, sessionController.js 424-539) -/

/-- JavaScript truthiness of the stored `participant.duration`. -/
def durationTruthy (p : Participant) : Bool :=
  match p.duration with
  | some d => d ≠ 0
  | none => false

/-- The reported `attended` count: participants with a join timestamp
(line 448). -/
def attendedParticipants (s : Session) : Nat :=
  (s.participants.filter (fun p => p.joinedAt.isSome)).length

/-- The reported `completed` count exactly as computed on lines 449-451:
`p.joinedAt && p.duration && p.duration >= session.duration * 0.8`.  The
stored `p.duration` is in seconds while `session.duration` is in minutes;
the comparison mixes the two units. -/
def completedParticipants (s : Session) : Nat :=
  (s.participants.filter (fun p =>
    p.joinedAt.isSome && (durationTruthy p &&
      decide ((s.duration : ℚ) * (4 / 5) ≤ (p.duration.getD 0 : ℚ))))).length

/-- The `completed` count as the specification words it: attended and
tracked duration at least 80% of the scheduled duration **with both
quantities in the same unit** (seconds: `session.duration * 60`).  Stated
only to compare against `completedParticipants`. -/
def completedParticipantsSpec (s : Session) : Nat :=
  (s.participants.filter (fun p =>
    p.joinedAt.isSome && (durationTruthy p &&
      decide (((s.duration * 60 : Nat) : ℚ) * (4 / 5) ≤ (p.duration.getD 0 : ℚ))))).length

/-! ## User controller (controllers/userController.js) and package
controller (controllers/packageController.js) -/

/-- Result of the token-mutation handlers on the user document. -/
structure TokensResult where
  status : Nat
  message : String
  user : User
  deriving Repr

/-- `exports.updateTokens` (userController.js 87-114).  The amount is
rejected when `!tokens || isNaN(tokens) || tokens < 0`, i.e. unless it is a
positive number; operation "add" credits, "subtract" debits after a balance
check, anything else sets the balance to the amount. -/
def updateTokens (u : User) (amount : Int) (op : String) : TokensResult :=
  if amount ≤ 0 then
    { status := 400, message := "Invalid token amount", user := u }
  else if op = "add" then
    { status := 200, message := "Tokens updated successfully", user := { u with tokens := u.tokens + amount } }
  else if op = "subtract" then
    if u.tokens < amount then
      { status := 400, message := "User does not have enough tokens", user := u }
    else
      { status := 200, message := "Tokens updated successfully", user := { u with tokens := u.tokens - amount } }
  else
    { status := 200, message := "Tokens updated successfully", user := { u with tokens := amount } }

/-- `exports.purchasePackage` (packageController.js 186-193 and the guards
above it), user-document effect: requires a payment method, an active
package, an unexpired promotion window; then credits the package's token
amount (the transaction record is immutable bookkeeping no claim reads). -/
def purchasePackage (pkg : Package) (u : User) (paymentMethod : String) (now : Nat) : TokensResult :=
  if paymentMethod = "" then
    { status := 400, message := "Payment method is required", user := u }
  else if pkg.active = false then
    { status := 400, message := "This package is not available for purchase", user := u }
  else if pkg.isPromotion && pkg.validUntil.any (fun t => decide (t < now)) then
    { status := 400, message := "This promotion has expired", user := u }
  else
    { status := 200, message := "Purchase successful", user := { u with tokens := u.tokens + (pkg.tokenAmount : Int) } }

/-! ## Statement-level auxiliary definitions -/

/-- The status transitions the code actually admits: stay put,
scheduled→cancelled, cancelled→scheduled (reactivation), scheduled→live
(startStream), live→completed (endStream). -/
def allowedStep (a b : Status) : Prop :=
  a = b ∨ (a = .scheduled ∧ b = .cancelled) ∨ (a = .cancelled ∧ b = .scheduled) ∨
    (a = .scheduled ∧ b = .live) ∨ (a = .live ∧ b = .completed)

/-- One call of the rate-session endpoint by a fixed user. -/
structure RateCall where
  rating : ℚ
  feedback : Option String
  time : Nat
  deriving DecidableEq, Repr

/-- Replay a list of rate-session calls by one user against a session. -/
def applyRatings (s : Session) (userId : Nat) (calls : List RateCall) : Session :=
  calls.foldl (fun cur c => (rateSession cur userId c.rating c.feedback c.time).session) s

/-- The in-place overwrite a resubmitted rating performs on the stored
entry: rating and timestamp always, feedback only when provided. -/
def mergeCall (userId : Nat) (e : RatingEntry) (c : RateCall) : RatingEntry :=
  { userId := userId
    rating := c.rating
    feedback := match c.feedback with | some f => some f | none => e.feedback
    createdAt := c.time }

/-- The stored entry after replaying a list of calls over an initial entry. -/
def runEntry (userId : Nat) (e : RatingEntry) (calls : List RateCall) : RatingEntry :=
  calls.foldl (mergeCall userId) e

/-- The last feedback actually provided in a list of calls (or the initial
value when none of the calls provides any). -/
def lastProvidedFeedback (init : Option String) (calls : List RateCall) : Option String :=
  calls.foldl (fun acc c => match c.feedback with | some f => some f | none => acc) init

/-! ## Concrete inputs used by counterexamples and witnesses -/

/-- A baseline session: one hour of yoga by trainer 1, costing 2 tokens. -/
def demoSession : Session :=
  { id := 1, title := "Yoga", description := "Morning flow", trainer := 1
    category := "yoga", difficulty := "Beginner"
    scheduledAt := 1000000, duration := 60, tokenCost := 2, maxParticipants := 0 }

/-- A baseline user with 3 tokens and no bookings. -/
def demoUser : User := { id := 5, role := "user", tokens := 3 }

/-- An active non-promotional 10-token package. -/
def demoPackage : Package :=
  { id := 1, name := "Starter", tokenAmount := 10, price := 5
    active := true, isPromotion := false, validUntil := none }

/-- A cancelled session (for the reactivation counterexample). -/
def cancelledSession : Session := { demoSession with status := Status.cancelled }

/-- A live session with an empty roster (for the join counterexamples). -/
def liveSession : Session := { demoSession with status := Status.live }

/-- A completed session in which user 7 participated and no rating exists. -/
def completedSession : Session :=
  { demoSession with
    status := Status.completed
    participants := [{ userId := 7, joinedAt := some 0, duration := some 100 }] }

/-- A 1-minute session whose single participant joined and accumulated one
second of watch time: the unit-mismatch witness for the analytics count. -/
def shortSession : Session :=
  { demoSession with
    duration := 1
    participants := [{ userId := 3, joinedAt := some 0, leaveAt := some 1000, duration := some 1 }] }

/-- A session with a participant roster not containing user 9, and a stale
record for user 9 lacking a join timestamp. -/
def neverJoinedSession : Session :=
  { demoSession with
    status := Status.live
    participants := [{ userId := 5, joinedAt := some 10, duration := some 7 }, { userId := 9 }] }

/-- A user who booked the demo session. -/
def bookedUser : User :=
  { id := 21, role := "user", tokens := 1,
    bookedSessions := [{ session := 1, bookedAt := 50 }, { session := 77, bookedAt := 60 }] }

/-- A user with no booking for the demo session. -/
def unbookedUser : User :=
  { id := 22, role := "user", tokens := 4, bookedSessions := [{ session := 77, bookedAt := 60 }] }

/-- A user holding a single token, fewer than the demo session's cost. -/
def poorUser : User := { id := 30, role := "user", tokens := 1 }

/-! ## Helper lemmas -/

theorem find?_updateFirst {α : Type} (p : α → Bool) (f : α → α)
    (hp : ∀ a, p (f a) = p a) :
    ∀ l : List α, (updateFirst p f l).find? p = (l.find? p).map f := by
  intro l
  induction l with
  | nil => rfl
  | cons x xs ih =>
    by_cases hx : p x = true
    · simp [updateFirst, hx, List.find?_cons, hp]
    · have hx2 : p x = false := by simpa using hx
      simp [updateFirst, hx2, List.find?_cons, hp, ih]

theorem updateFirst_append_left {α : Type} (p : α → Bool) (f : α → α) :
    ∀ l₁ l₂ : List α, (∀ a ∈ l₁, p a = false) →
      updateFirst p f (l₁ ++ l₂) = l₁ ++ updateFirst p f l₂ := by
  intro l₁
  induction l₁ with
  | nil => intro l₂ _; rfl
  | cons x xs ih =>
    intro l₂ h
    have hx : p x = false := h x (List.mem_cons_self x xs)
    simp [updateFirst, hx, ih l₂ (fun a ha => h a (List.mem_cons_of_mem x ha))]

theorem find?_append_left_none {α : Type} (p : α → Bool) :
    ∀ l₁ l₂ : List α, (∀ a ∈ l₁, p a = false) →
      (l₁ ++ l₂).find? p = l₂.find? p := by
  intro l₁
  induction l₁ with
  | nil => intro l₂ _; rfl
  | cons x xs ih =>
    intro l₂ h
    have hx : p x = false := h x (List.mem_cons_self x xs)
    simp [List.find?_cons, hx, ih l₂ (fun a ha => h a (List.mem_cons_of_mem x ha))]

theorem recordParticipantJoin_present (s : Session) (userId now : Nat)
    (h : s.participants.any (fun p => p.userId == userId) = true) :
    s.recordParticipantJoin userId now =
      { s with participants := updateFirst (fun p => p.userId == userId) (fun p => { p with joinedAt := some now, leaveAt := none }) s.participants } := by
  unfold Session.recordParticipantJoin
  rw [if_pos h]

theorem recordParticipantJoin_absent (s : Session) (userId now : Nat)
    (h : s.participants.any (fun p => p.userId == userId) = false) :
    s.recordParticipantJoin userId now =
      { s with participants := s.participants ++ [{ userId := userId, joinedAt := some now, messages := 0, reactions := 0 }] } := by
  unfold Session.recordParticipantJoin
  rw [if_neg (by simp [h])]

theorem recordParticipantLeave_found (s : Session) (userId now j : Nat) (p : Participant)
    (hf : s.participants.find? (fun q => q.userId == userId) = some p)
    (hj : p.joinedAt = some j) :
    s.recordParticipantLeave userId now =
      { s with participants := updateFirst (fun q => q.userId == userId) (fun q => { q with leaveAt := some now, duration := some (q.duration.getD 0 + (now - j) / 1000) }) s.participants } := by
  unfold Session.recordParticipantLeave
  split
  · next heq => simp_all
  · next p2 heq =>
    rw [hf] at heq
    cases heq
    split
    · next hj2 => simp_all
    · next j2 hj2 =>
      rw [hj] at hj2
      cases hj2
      rfl

/-! ## Claim theorems -/

/-- C7: every host credential is minted with a 24-hour validity window and
every viewer credential with a 3-hour window, both scoped to the channel
name deterministically derived from the session identifier; when the RTC
configuration is absent both paths return the fixed placeholder credential
instead of failing. -/
theorem credential_windows_and_degraded_mode (cfg : AgoraConfig) (sid : String)
    (trainerId userId nowSec : Nat) :
    (createChannel cfg sid trainerId nowSec).channelName = channelNameOf sid ∧
    (generateViewerToken cfg sid userId nowSec).channelName = channelNameOf sid ∧
    (cfg.configured = true →
      (createChannel cfg sid trainerId nowSec).hostToken =
        RtcToken.built cfg.appId cfg.appCertificate (channelNameOf sid) trainerId true (nowSec + 24 * 3600) ∧
      (generateViewerToken cfg sid userId nowSec).viewerToken =
        RtcToken.built cfg.appId cfg.appCertificate (channelNameOf sid) userId false (nowSec + 3 * 3600)) ∧
    (cfg.configured = false →
      (createChannel cfg sid trainerId nowSec).hostToken = RtcToken.placeholder placeholderTokenValue ∧
      (generateViewerToken cfg sid userId nowSec).viewerToken = RtcToken.placeholder placeholderTokenValue) := by
  refine ⟨rfl, rfl, ?_, ?_⟩ <;> intro h <;>
    simp [createChannel, generateViewerToken, generateToken, h]

/-- Witness for C7 at a configured and an unconfigured service. -/
theorem credential_windows_witness :
    (createChannel ⟨true, "app", "cert"⟩ ("abc") 1 1000).hostToken =
      RtcToken.built "app" "cert" (channelNameOf "abc") 1 true (1000 + 24 * 3600) ∧
    (generateViewerToken ⟨false, "app", "cert"⟩ ("abc") 2 1000).viewerToken =
      RtcToken.placeholder placeholderTokenValue := by
  refine ⟨?_, ?_⟩
  · exact ((credential_windows_and_degraded_mode ⟨true, "app", "cert"⟩ "abc" 1 2 1000).2.2.1 rfl).1
  · exact ((credential_windows_and_degraded_mode ⟨false, "app", "cert"⟩ "abc" 1 2 1000).2.2.2 rfl).2

/-- C10: a leave request by a user who has no participant record with a
join timestamp leaves the session document untouched (in particular the
participants list with every duration and leave timestamp), yet still
answers 200 "Left stream successfully"; no status precondition is checked
(the session here is arbitrary, of any status). -/
theorem leaveStream_without_join_is_noop (s : Session) (userId now : Nat)
    (h : ∀ p ∈ s.participants, p.userId = userId → p.joinedAt = none) :
    (leaveStream s userId now).status = 200 ∧
    (leaveStream s userId now).message = "Left stream successfully" ∧
    (leaveStream s userId now).session = s ∧
    (leaveStream s userId now).session.participants = s.participants := by
  have hsess : (leaveStream s userId now).session = s := by
    show s.recordParticipantLeave userId now = s
    unfold Session.recordParticipantLeave
    cases hf : s.participants.find? (fun p => p.userId == userId) with
    | none => rfl
    | some p =>
      have hmem : p ∈ s.participants := List.mem_of_find?_eq_some hf
      have hq := List.find?_some hf
      have hj : p.joinedAt = none := h p hmem (by simpa using hq)
      simp [hj]
  exact ⟨rfl, rfl, hsess, by rw [hsess]⟩

/-- Witness for C10: user 9 has a stale record without a join timestamp on
a live session; leaving succeeds and changes nothing. -/
theorem leaveStream_without_join_witness :
    (leaveStream neverJoinedSession 9 4000).status = 200 ∧
    (leaveStream neverJoinedSession 9 4000).session = neverJoinedSession := by
  have h := leaveStream_without_join_is_noop neverJoinedSession 9 4000 (by decide)
  exact ⟨h.1, h.2.2.1⟩

/-- C9: starting from a non-negative balance, every token-mutating
operation (the booking debit, updateTokens in add/subtract/set mode, the
package-purchase credit, and the cancel-triggered refund) either rejects
the request leaving the balance unchanged or leaves a balance that is
still non-negative. -/
theorem token_balance_never_negative :
    (∀ (s : Session) (u : User) (now : Nat), 0 ≤ u.tokens →
      0 ≤ (bookSession s u now).user.tokens) ∧
    (∀ (u : User) (amount : Int) (op : String), 0 ≤ u.tokens →
      0 ≤ (updateTokens u amount op).user.tokens) ∧
    (∀ (pkg : Package) (u : User) (pm : String) (now : Nat), 0 ≤ u.tokens →
      0 ≤ (purchasePackage pkg u pm now).user.tokens) ∧
    (∀ (s : Session) (rid : Nat) (role target : String) (users : List User),
      (∀ u ∈ users, 0 ≤ u.tokens) →
      ∀ u2 ∈ (updateSessionStatus s rid role target users).users, 0 ≤ u2.tokens) := by
  refine ⟨?_, ?_, ?_, ?_⟩
  · intro s u now h
    unfold bookSession
    split_ifs with h1 h2 h3 h4 h5 <;> simp_all
  · intro u amount op h
    unfold updateTokens
    split_ifs with h1 h2 h3 h4 <;> simp_all <;> omega
  · intro pkg u pm now h
    unfold purchasePackage
    split_ifs with h1 h2 h3 <;> simp_all
    positivity
  · intro s rid role target users h u2 hu2
    unfold updateSessionStatus at hu2
    split_ifs at hu2 with h1 h2 h3 h4
    · exact h u2 (by simpa using hu2)
    · exact h u2 (by simpa using hu2)
    · exact h u2 (by simpa using hu2)
    · have hu2a : u2 ∈ users.map (fun u =>
          if u.bookedSessions.any (fun b => b.session == s.id) then refundUser s u else u) := hu2
      rcases List.mem_map.mp hu2a with ⟨u0, hu0, rfl⟩
      have hu0t := h u0 hu0
      by_cases hb : u0.bookedSessions.any (fun b => b.session == s.id) = true
      · rw [if_pos hb]
        simp only [refundUser]
        omega
      · rw [if_neg hb]
        exact hu0t
    · exact h u2 (by simpa using hu2)

/-- Witness for C9: each token-mutating operation applied at a concrete
non-negative starting balance. -/
theorem token_balance_witness :
    0 ≤ (bookSession demoSession demoUser 0).user.tokens ∧
    0 ≤ (updateTokens demoUser 5 ("subtract")).user.tokens ∧
    0 ≤ (purchasePackage demoPackage demoUser ("card") 0).user.tokens ∧
    ∀ u2 ∈ (updateSessionStatus demoSession 1 ("trainer") ("cancelled") [bookedUser]).users,
      0 ≤ u2.tokens := by
  refine ⟨?_, ?_, ?_, ?_⟩
  · exact token_balance_never_negative.1 demoSession demoUser 0 (by decide)
  · exact token_balance_never_negative.2.1 demoUser 5 "subtract" (by decide)
  · exact token_balance_never_negative.2.2.1 demoPackage demoUser "card" 0 (by decide)
  · exact token_balance_never_negative.2.2.2 demoSession 1 "trainer" "cancelled" [bookedUser] (by decide)

/-- C6 (code bug): the analytics "completed" count compares the stored
participant duration in seconds against 80% of the scheduled duration in
minutes.  On a 1-minute session whose only participant watched 1 second,
the code reports 1 completed participant while the same-unit count of the
claim reports 0. -/
theorem analytics_completed_unit_mismatch :
    attendedParticipants shortSession = 1 ∧
    completedParticipants shortSession = 1 ∧
    completedParticipantsSpec shortSession = 0 ∧
    (shortSession.participants.map Participant.duration = [some 1] ∧ shortSession.duration = 1) := by
  refine ⟨rfl, ?_, ?_, by constructor <;> rfl⟩ <;>
    norm_num [completedParticipants, completedParticipantsSpec, shortSession, demoSession,
      durationTruthy, List.filter]

/-- C2: booking fails with status 400 exactly when the session is in the
past, cancelled, already booked by this user, full (with positive capacity),
or unaffordable; on every failure the user's token balance and booking list
and the session's participant roster are unchanged; the capacity and balance
failures answer "Session is full" resp. "Insufficient tokens". -/
theorem bookSession_failure_characterization (s : Session) (u : User) (now : Nat) :
    ((bookSession s u now).status = 400 ↔
      (s.scheduledAt < now ∨ s.status = Status.cancelled ∨ alreadyBooked u s = true ∨
        (0 < s.maxParticipants ∧ s.maxParticipants ≤ s.participants.length) ∨
        u.tokens < (s.tokenCost : Int))) ∧
    ((bookSession s u now).status = 400 →
      (bookSession s u now).user.tokens = u.tokens ∧
      (bookSession s u now).user.bookedSessions = u.bookedSessions ∧
      (bookSession s u now).session.participants = s.participants) ∧
    (¬ s.scheduledAt < now → s.status ≠ Status.cancelled → alreadyBooked u s = false →
      (0 < s.maxParticipants ∧ s.maxParticipants ≤ s.participants.length) →
      (bookSession s u now).message = "Session is full") ∧
    (¬ s.scheduledAt < now → s.status ≠ Status.cancelled → alreadyBooked u s = false →
      ¬ (0 < s.maxParticipants ∧ s.maxParticipants ≤ s.participants.length) →
      u.tokens < (s.tokenCost : Int) →
      (bookSession s u now).message = "Insufficient tokens") := by
  unfold bookSession
  split_ifs with h1 h2 h3 h4 h5 <;> simp_all

/-- Witness for C2 at the spec's own example: a 2-token session and a
1-token user yield 400 "Insufficient tokens" with the balance untouched. -/
theorem bookSession_insufficient_witness :
    (bookSession demoSession poorUser 0).status = 400 ∧
    (bookSession demoSession poorUser 0).message = "Insufficient tokens" ∧
    (bookSession demoSession poorUser 0).user.tokens = poorUser.tokens := by
  have h := bookSession_failure_characterization demoSession poorUser 0
  have h400 : (bookSession demoSession poorUser 0).status = 400 :=
    h.1.mpr (Or.inr (Or.inr (Or.inr (Or.inr (by decide)))))
  exact ⟨h400, h.2.2.2 (by decide) (by decide) (by decide) (by decide) (by decide),
    (h.2.1 h400).1⟩

/-- C1 counterexample: the stored status of a cancelled session moves back
to scheduled on a status-update request by its trainer (the handler blocks
only live and completed sessions), so cancelled is not terminal and the
request is not rejected. -/
theorem cancelled_is_not_terminal :
    cancelledSession.status = Status.cancelled ∧
    (updateSessionStatus cancelledSession 1 ("trainer") ("scheduled") []).status = 200 ∧
    (updateSessionStatus cancelledSession 1 ("trainer") ("scheduled") []).session.status = Status.scheduled := by
  exact ⟨rfl, rfl, rfl⟩

/-- C1 as amended: every status-changing request either leaves the stored
status unchanged (all rejections do) or moves it along
scheduled→live→completed, scheduled→cancelled, or cancelled→scheduled;
completed is terminal under `allowedStep`. -/
theorem status_transitions_allowed :
    (∀ b, allowedStep Status.completed b → b = Status.completed) ∧
    (∀ (s : Session) (rid : Nat) (role target : String) (users : List User),
      allowedStep s.status (updateSessionStatus s rid role target users).session.status ∧
      ((updateSessionStatus s rid role target users).status ≠ 200 →
        (updateSessionStatus s rid role target users).session = s)) ∧
    (∀ (s : Session) (rid : Nat) (role : String) (body : UpdateBody),
      allowedStep s.status (updateSession s rid role body).session.status ∧
      ((updateSession s rid role body).status ≠ 200 → (updateSession s rid role body).session = s)) ∧
    (∀ (cfg : AgoraConfig) (s : Session) (uid nowMs : Nat),
      allowedStep s.status (startStream cfg s uid nowMs).session.status ∧
      ((startStream cfg s uid nowMs).status ≠ 200 → (startStream cfg s uid nowMs).session = s)) ∧
    (∀ (s : Session) (uid nowMs : Nat),
      allowedStep s.status (endStream s uid nowMs).session.status ∧
      ((endStream s uid nowMs).status ≠ 200 → (endStream s uid nowMs).session = s)) := by
  refine ⟨?_, ?_, ?_, ?_, ?_⟩
  · intro b h
    rcases h with h | h | h | h | h <;> simp_all
  · intro s rid role target users
    unfold updateSessionStatus
    split_ifs with h1 h2 h3 h4 <;>
      try exact ⟨Or.inl rfl, fun _ => rfl⟩
    all_goals refine ⟨?_, fun hc => absurd rfl hc⟩
    all_goals cases hs : s.status <;> simp_all [allowedStep]
  · intro s rid role body
    unfold updateSession
    split_ifs with h1 h2 <;>
      try exact ⟨Or.inl rfl, fun _ => rfl⟩
    refine ⟨?_, fun hc => absurd rfl hc⟩
    cases hb : body.status with
    | none => cases hs : s.status <;> simp_all [allowedStep]
    | some st =>
      cases st <;> cases hs : s.status <;> simp_all [allowedStep]
  · intro cfg s uid nowMs
    unfold startStream
    split_ifs with h1 h2 h3 <;>
      try exact ⟨Or.inl rfl, fun _ => rfl⟩
    refine ⟨?_, fun hc => absurd rfl hc⟩
    cases hs : s.status <;> simp_all [allowedStep, updateSessionStreamStatus]
  · intro s uid nowMs
    unfold endStream
    split_ifs with h1 h2 <;>
      try exact ⟨Or.inl rfl, fun _ => rfl⟩
    refine ⟨?_, fun hc => absurd rfl hc⟩
    cases hs : s.status <;> simp_all [allowedStep, updateSessionStreamStatus]

/-- Witness for C1 (amended): a concrete allowed reactivation step, a
concrete rejected update on a live session, and terminality of completed. -/
theorem status_transitions_witness :
    allowedStep cancelledSession.status
      (updateSessionStatus cancelledSession 1 ("trainer") ("scheduled") []).session.status ∧
    (updateSession liveSession 1 ("trainer") {}).session = liveSession ∧
    Status.completed = Status.completed := by
  refine ⟨?_, ?_, ?_⟩
  · exact (status_transitions_allowed.2.1 cancelledSession 1 "trainer" "scheduled" []).1
  · exact (status_transitions_allowed.2.2.1 liveSession 1 "trainer" {}).2 (by decide)
  · exact status_transitions_allowed.1 Status.completed (Or.inl rfl)

/-- C5 counterexample: the effective join handler admits a requester who is
neither the owning trainer nor holds any booking (it never loads the user
document at all): user 42 joins the live session with status 200 and a
participant record is added. -/
theorem joinStream_no_authorization_counterexample :
    liveSession.trainer ≠ 42 ∧
    (joinStream liveSession 42 5000).status = 200 ∧
    ((joinStream liveSession 42 5000).session.participants.map Participant.userId) = [42] := by
  exact ⟨by decide, rfl, rfl⟩

/-- C5 as amended: joinStream succeeds exactly when the session is live; a
rejection leaves the session unchanged; on success the requester's join
timestamp is recorded, any prior leave timestamp cleared and the
accumulated duration preserved — for every authenticated requester, with
no trainer/booking authorization enforced. -/
theorem joinStream_live_gate_no_booking_check (s : Session) (userId now : Nat) :
    ((joinStream s userId now).status = 200 ↔ s.status = Status.live) ∧
    ((joinStream s userId now).status ≠ 200 → (joinStream s userId now).session = s) ∧
    (s.status = Status.live →
      ∃ p, (joinStream s userId now).session.participants.find? (fun q => q.userId == userId) = some p ∧
        p.joinedAt = some now ∧ p.leaveAt = none ∧
        p.duration = ((s.participants.find? (fun q => q.userId == userId)).bind Participant.duration)) := by
  by_cases hl : s.status = Status.live
  · refine ⟨by simp [joinStream, hl], ?_, ?_⟩
    · intro hc
      exact absurd (by simp [joinStream, hl]) hc
    · intro _
      have hsess : (joinStream s userId now).session = s.recordParticipantJoin userId now := by
        simp [joinStream, hl]
      rw [hsess]
      unfold Session.recordParticipantJoin
      by_cases hany : s.participants.any (fun p => p.userId == userId) = true
      · rw [if_pos hany]
        obtain ⟨x, hx, hpx⟩ := List.any_eq_true.mp hany
        have hsome : (s.participants.find? (fun q => q.userId == userId)).isSome = true :=
          List.find?_isSome.mpr ⟨x, hx, hpx⟩
        obtain ⟨q, hq⟩ := Option.isSome_iff_exists.mp hsome
        refine ⟨{ q with joinedAt := some now, leaveAt := none }, ?_, rfl, rfl, ?_⟩
        · show (updateFirst (fun p => p.userId == userId)
              (fun p => { p with joinedAt := some now, leaveAt := none }) s.participants).find?
                (fun q => q.userId == userId) = _
          rw [find?_updateFirst (fun p => p.userId == userId)
            (fun p => { p with joinedAt := some now, leaveAt := none }) (fun a => rfl)
            s.participants, hq]
          rfl
        · simp [hq]
      · rw [if_neg hany]
        have hall : ∀ p ∈ s.participants, (p.userId == userId) = false := by
          intro p hp
          by_contra hbad
          exact hany (List.any_eq_true.mpr ⟨p, hp, by simpa using hbad⟩)
        refine ⟨{ userId := userId, joinedAt := some now, messages := 0, reactions := 0 }, ?_, rfl, rfl, ?_⟩
        · show (s.participants ++ [_]).find? _ = _
          rw [find?_append_left_none _ _ _ hall]
          simp [List.find?_cons]
        · rw [List.find?_eq_none.mpr (fun a ha => by simp [hall a ha])]
          rfl
  · refine ⟨by simp [joinStream, hl], ?_, fun hc => absurd hc hl⟩
    intro _
    simp [joinStream, hl]

/-- Witness for C5 (amended) at a live and a scheduled session. -/
theorem joinStream_live_gate_witness :
    (joinStream liveSession 42 5000).status = 200 ∧
    (joinStream demoSession 42 5000).session = demoSession ∧
    ∃ p, (joinStream liveSession 42 5000).session.participants.find? (fun q => q.userId == 42) = some p ∧
      p.joinedAt = some 5000 := by
  refine ⟨?_, ?_, ?_⟩
  · exact (joinStream_live_gate_no_booking_check liveSession 42 5000).1.mpr rfl
  · exact (joinStream_live_gate_no_booking_check demoSession 42 5000).2.1 (by decide)
  · obtain ⟨p, h1, h2, -, -⟩ :=
      (joinStream_live_gate_no_booking_check liveSession 42 5000).2.2 rfl
    exact ⟨p, h1, h2⟩

theorem refund_map_forall₂ (s : Session) (users : List User) :
    List.Forall₂ (fun u u2 =>
      if u.bookedSessions.any (fun b => b.session == s.id) then
        u2.tokens = u.tokens + (s.tokenCost : Int) ∧
        u2.bookedSessions = u.bookedSessions.filter (fun b => b.session ≠ s.id)
      else u2 = u)
      users
      (users.map (fun u =>
        if u.bookedSessions.any (fun b => b.session == s.id) then refundUser s u else u)) := by
  induction users with
  | nil => exact List.Forall₂.nil
  | cons u us ih =>
    rw [List.map_cons]
    refine List.Forall₂.cons ?_ ih
    by_cases hb : u.bookedSessions.any (fun b => b.session == s.id) = true
    · rw [if_pos hb, if_pos hb]
      exact ⟨rfl, rfl⟩
    · rw [if_neg hb, if_neg hb]

theorem refund_map_sum (s : Session) (users : List User) :
    ((users.map (fun u =>
        if u.bookedSessions.any (fun b => b.session == s.id) then refundUser s u else u)).map
      User.tokens).sum =
    (users.map User.tokens).sum +
      ((users.filter (fun u => u.bookedSessions.any (fun b => b.session == s.id))).length : Int) *
        (s.tokenCost : Int) := by
  induction users with
  | nil => simp
  | cons u us ih =>
    simp only [List.map_cons, List.sum_cons, List.filter_cons]
    by_cases hb : u.bookedSessions.any (fun b => b.session == s.id) = true
    · rw [if_pos hb, if_pos hb, ih]
      simp only [refundUser, List.length_cons]
      push_cast
      ring
    · rw [if_neg hb, if_neg hb, ih]
      ring

/-- C3: cancelling a scheduled session through the status-update endpoint
answers 200, stores status cancelled, credits every user holding a booking
reference to the session exactly its token cost while removing precisely the
booking references to that session (other bookings intact), leaves every
other user untouched, and in total credits N times the cost where N is the
number of users holding such a booking reference. -/
theorem cancel_refunds_each_booked_user (s : Session) (role : String) (users : List User)
    (hs : s.status = Status.scheduled) :
    (updateSessionStatus s s.trainer role ("cancelled") users).status = 200 ∧
    (updateSessionStatus s s.trainer role ("cancelled") users).session.status = Status.cancelled ∧
    List.Forall₂ (fun u u2 =>
      if u.bookedSessions.any (fun b => b.session == s.id) then
        u2.tokens = u.tokens + (s.tokenCost : Int) ∧
        u2.bookedSessions = u.bookedSessions.filter (fun b => b.session ≠ s.id)
      else u2 = u)
      users (updateSessionStatus s s.trainer role ("cancelled") users).users ∧
    ((updateSessionStatus s s.trainer role ("cancelled") users).users.map User.tokens).sum =
      (users.map User.tokens).sum +
        ((users.filter (fun u => u.bookedSessions.any (fun b => b.session == s.id))).length : Int) *
          (s.tokenCost : Int) := by
  have hresult : updateSessionStatus s s.trainer role ("cancelled") users =
      { status := 200, message := "Session cancelled successfully"
        session := { s with status := Status.cancelled }
        users := users.map (fun u =>
          if u.bookedSessions.any (fun b => b.session == s.id) then refundUser s u else u) } := by
    unfold updateSessionStatus
    rw [if_neg (by simp), if_neg (by simp), if_neg (by simp [hs])]
    rfl
  rw [hresult]
  exact ⟨rfl, rfl, refund_map_forall₂ s users, refund_map_sum s users⟩

/-- Witness for C3: cancelling the demo session with one booked and one
unbooked user refunds exactly one user its 2-token cost. -/
theorem cancel_refunds_witness :
    (updateSessionStatus demoSession 1 ("trainer") ("cancelled") [bookedUser, unbookedUser]).status = 200 ∧
    ((updateSessionStatus demoSession 1 ("trainer") ("cancelled") [bookedUser, unbookedUser]).users.map
      User.tokens).sum =
      (([bookedUser, unbookedUser].map User.tokens)).sum +
        (([bookedUser, unbookedUser].filter (fun u =>
          u.bookedSessions.any (fun b => b.session == demoSession.id))).length : Int) *
          (demoSession.tokenCost : Int) ∧
    ((updateSessionStatus demoSession 1 ("trainer") ("cancelled") [bookedUser, unbookedUser]).users.map
      User.tokens) = [3, 4] := by
  have h := cancel_refunds_each_booked_user demoSession "trainer" [bookedUser, unbookedUser] rfl
  exact ⟨h.1, h.2.2.2, by decide⟩

/-- C8: every leave stamps the leave timestamp and adds the elapsed seconds
since the most recent join onto the participant's accumulated duration; in
particular a join-leave-join-leave sequence accumulates the sum of the two
intervals, not only the last one. -/
theorem leave_accumulates_duration :
    (∀ (s : Session) (userId now j : Nat) (p : Participant),
      s.participants.find? (fun q => q.userId == userId) = some p →
      p.joinedAt = some j →
      (s.recordParticipantLeave userId now).participants.find? (fun q => q.userId == userId) =
        some { p with leaveAt := some now, duration := some (p.duration.getD 0 + (now - j) / 1000) }) ∧
    (∀ (s : Session) (userId t1 t2 t3 t4 : Nat),
      (∀ q ∈ s.participants, (q.userId == userId) = false) →
      t1 ≤ t2 → t3 ≤ t4 →
      ((((s.recordParticipantJoin userId t1).recordParticipantLeave userId t2).recordParticipantJoin
          userId t3).recordParticipantLeave userId t4).participants.find?
        (fun q => q.userId == userId) =
        some { userId := userId, joinedAt := some t3, leaveAt := some t4
               duration := some ((t2 - t1) / 1000 + (t4 - t3) / 1000)
               messages := 0, reactions := 0 }) := by
  constructor
  · intro s userId now j p hf hj
    rw [recordParticipantLeave_found s userId now j p hf hj]
    show (updateFirst (fun q => q.userId == userId) (fun q => { q with leaveAt := some now, duration := some (q.duration.getD 0 + (now - j) / 1000) }) s.participants).find? (fun q => q.userId == userId) = some { p with leaveAt := some now, duration := some (p.duration.getD 0 + (now - j) / 1000) }
    rw [find?_updateFirst (fun q => q.userId == userId) (fun q => { q with leaveAt := some now, duration := some (q.duration.getD 0 + (now - j) / 1000) }) (fun a => rfl) s.participants, hf]
    rfl
  · intro s userId t1 t2 t3 t4 hall h12 h34
    have hany0 : (s.participants.any (fun q => q.userId == userId)) = false :=
      List.any_eq_false.mpr (fun p hp => by simp [hall p hp])
    have P1 : (s.recordParticipantJoin userId t1).participants =
        s.participants ++ [{ userId := userId, joinedAt := some t1, leaveAt := none, duration := none, messages := 0, reactions := 0 }] := by
      rw [recordParticipantJoin_absent s userId t1 hany0]
    have hfind1 : (s.recordParticipantJoin userId t1).participants.find? (fun q => q.userId == userId) =
        some { userId := userId, joinedAt := some t1, leaveAt := none, duration := none, messages := 0, reactions := 0 } := by
      rw [P1, find?_append_left_none _ _ _ hall]
      simp [List.find?_cons]
    have P2 : ((s.recordParticipantJoin userId t1).recordParticipantLeave userId t2).participants =
        s.participants ++ [{ userId := userId, joinedAt := some t1, leaveAt := some t2, duration := some ((t2 - t1) / 1000), messages := 0, reactions := 0 }] := by
      rw [recordParticipantLeave_found (s.recordParticipantJoin userId t1) userId t2 t1 { userId := userId, joinedAt := some t1, leaveAt := none, duration := none, messages := 0, reactions := 0 } hfind1 rfl]
      show updateFirst (fun q => q.userId == userId) (fun q => { q with leaveAt := some t2, duration := some (q.duration.getD 0 + (t2 - t1) / 1000) }) (s.recordParticipantJoin userId t1).participants = s.participants ++ [{ userId := userId, joinedAt := some t1, leaveAt := some t2, duration := some ((t2 - t1) / 1000), messages := 0, reactions := 0 }]
      rw [P1, updateFirst_append_left _ _ _ _ hall]
      simp [updateFirst, Option.getD]
    have hany2 : (((s.recordParticipantJoin userId t1).recordParticipantLeave userId t2).participants.any (fun q => q.userId == userId)) = true := by
      rw [P2]
      simp
    have P3 : ((((s.recordParticipantJoin userId t1).recordParticipantLeave userId t2).recordParticipantJoin userId t3)).participants =
        s.participants ++ [{ userId := userId, joinedAt := some t3, leaveAt := none, duration := some ((t2 - t1) / 1000), messages := 0, reactions := 0 }] := by
      rw [recordParticipantJoin_present ((s.recordParticipantJoin userId t1).recordParticipantLeave userId t2) userId t3 hany2]
      show updateFirst (fun q => q.userId == userId) (fun q => { q with joinedAt := some t3, leaveAt := none }) ((s.recordParticipantJoin userId t1).recordParticipantLeave userId t2).participants = s.participants ++ [{ userId := userId, joinedAt := some t3, leaveAt := none, duration := some ((t2 - t1) / 1000), messages := 0, reactions := 0 }]
      rw [P2, updateFirst_append_left _ _ _ _ hall]
      simp [updateFirst]
    have hfind3 : ((((s.recordParticipantJoin userId t1).recordParticipantLeave userId t2).recordParticipantJoin userId t3)).participants.find? (fun q => q.userId == userId) =
        some { userId := userId, joinedAt := some t3, leaveAt := none, duration := some ((t2 - t1) / 1000), messages := 0, reactions := 0 } := by
      rw [P3, find?_append_left_none _ _ _ hall]
      simp [List.find?_cons]
    rw [recordParticipantLeave_found (((s.recordParticipantJoin userId t1).recordParticipantLeave userId t2).recordParticipantJoin userId t3) userId t4 t3 { userId := userId, joinedAt := some t3, leaveAt := none, duration := some ((t2 - t1) / 1000), messages := 0, reactions := 0 } hfind3 rfl]
    show (updateFirst (fun q => q.userId == userId) (fun q => { q with leaveAt := some t4, duration := some (q.duration.getD 0 + (t4 - t3) / 1000) }) ((((s.recordParticipantJoin userId t1).recordParticipantLeave userId t2).recordParticipantJoin userId t3)).participants).find? (fun q => q.userId == userId) = some { userId := userId, joinedAt := some t3, leaveAt := some t4, duration := some ((t2 - t1) / 1000 + (t4 - t3) / 1000), messages := 0, reactions := 0 }
    rw [P3, updateFirst_append_left _ _ _ _ hall, find?_append_left_none _ _ _ hall]
    simp [updateFirst, List.find?_cons, Option.getD]

/-- Witness for C8: a single leave adds the elapsed seconds onto an existing
duration (7 + 2 = 9), and the full 2-cycle scenario accumulates 2 + 1 = 3
seconds across both intervals. -/
theorem leave_accumulates_witness :
    (neverJoinedSession.recordParticipantLeave 5 2010).participants.find?
      (fun q => q.userId == 5) =
      some { userId := 5, joinedAt := some 10, leaveAt := some 2010, duration := some 9 } ∧
    ((((demoSession.recordParticipantJoin 9 1000).recordParticipantLeave 9
        3000).recordParticipantJoin 9 5000).recordParticipantLeave 9 6000).participants.find?
      (fun q => q.userId == 9) =
      some { userId := 9, joinedAt := some 5000, leaveAt := some 6000, duration := some 3 } := by
  constructor
  · have h := leave_accumulates_duration.1 neverJoinedSession 5 2010 10
      { userId := 5, joinedAt := some 10, duration := some 7 } rfl rfl
    simpa using h
  · have h := leave_accumulates_duration.2 demoSession 9 1000 3000 5000 6000
      (by decide) (by decide) (by decide)
    simpa using h


theorem map_if_userId_false (userId : Nat) (f : RatingEntry → RatingEntry) :
    ∀ base : List RatingEntry, (∀ r ∈ base, (r.userId == userId) = false) →
      base.map (fun r => if r.userId == userId then f r else r) = base := by
  intro base
  induction base with
  | nil => intro _; rfl
  | cons r rs ih =>
    intro h
    have hr := h r (List.mem_cons_self r rs)
    simp only [List.map_cons, hr, Bool.false_eq_true, if_false,
      ih (fun x hx => h x (List.mem_cons_of_mem r hx))]

theorem rateSession_not_rated (s : Session) (userId : Nat) (rating : ℚ) (fb : Option String)
    (now : Nat) (h1 : 1 ≤ rating) (h5 : rating ≤ 5) (hst : s.status = Status.completed)
    (hp : s.participants.any (fun p => p.userId == userId) = true)
    (hnone : s.ratings.any (fun r => r.userId == userId) = false) :
    (rateSession s userId rating fb now).session =
      { s with ratings := s.ratings ++ [{ userId := userId, rating := rating, feedback := fb, createdAt := now }], averageRating := avgRating (s.ratings ++ [{ userId := userId, rating := rating, feedback := fb, createdAt := now }]) } := by
  unfold rateSession
  rw [if_neg (by push_neg; exact ⟨h1, h5⟩), if_neg (by simp [hst]), if_neg (by simp [hp])]
  show ((if s.ratings.any (fun r => r.userId == userId) then ({ s with ratings := s.ratings.map (fun r => if r.userId == userId then { r with rating := rating, feedback := match fb with | some f2 => some f2 | none => r.feedback, createdAt := now } else r) } : Session) else { s with ratings := s.ratings ++ [{ userId := userId, rating := rating, feedback := fb, createdAt := now }] }).calculateAverageRating) = _
  rw [if_neg (by simp [hnone])]
  rfl

theorem rateSession_rated (s : Session) (userId : Nat) (rating : ℚ) (fb : Option String)
    (now : Nat) (h1 : 1 ≤ rating) (h5 : rating ≤ 5) (hst : s.status = Status.completed)
    (hp : s.participants.any (fun p => p.userId == userId) = true)
    (hsome : s.ratings.any (fun r => r.userId == userId) = true) :
    (rateSession s userId rating fb now).session =
      { s with ratings := s.ratings.map (fun r => if r.userId == userId then { r with rating := rating, feedback := match fb with | some f2 => some f2 | none => r.feedback, createdAt := now } else r), averageRating := avgRating (s.ratings.map (fun r => if r.userId == userId then { r with rating := rating, feedback := match fb with | some f2 => some f2 | none => r.feedback, createdAt := now } else r)) } := by
  unfold rateSession
  rw [if_neg (by push_neg; exact ⟨h1, h5⟩), if_neg (by simp [hst]), if_neg (by simp [hp])]
  show ((if s.ratings.any (fun r => r.userId == userId) then ({ s with ratings := s.ratings.map (fun r => if r.userId == userId then { r with rating := rating, feedback := match fb with | some f2 => some f2 | none => r.feedback, createdAt := now } else r) } : Session) else { s with ratings := s.ratings ++ [{ userId := userId, rating := rating, feedback := fb, createdAt := now }] }).calculateAverageRating) = _
  rw [if_pos hsome]
  rfl

theorem rateSession_step (s : Session) (userId : Nat) (rating : ℚ) (fb : Option String)
    (now : Nat) (base : List RatingEntry) (e : RatingEntry)
    (h1 : 1 ≤ rating) (h5 : rating ≤ 5) (hst : s.status = Status.completed)
    (hp : s.participants.any (fun p => p.userId == userId) = true)
    (hbase : ∀ r ∈ base, (r.userId == userId) = false)
    (he : e.userId = userId)
    (hr : s.ratings = base ++ [e]) :
    (rateSession s userId rating fb now).session =
      { s with ratings := base ++ [mergeCall userId e { rating := rating, feedback := fb, time := now }], averageRating := avgRating (base ++ [mergeCall userId e { rating := rating, feedback := fb, time := now }]) } := by
  have hsome : s.ratings.any (fun r => r.userId == userId) = true := by
    rw [hr]
    simp [he]
  rw [rateSession_rated s userId rating fb now h1 h5 hst hp hsome]
  have hmap : s.ratings.map (fun r => if r.userId == userId then { r with rating := rating, feedback := match fb with | some f2 => some f2 | none => r.feedback, createdAt := now } else r) = base ++ [mergeCall userId e { rating := rating, feedback := fb, time := now }] := by
    rw [hr, List.map_append,
      map_if_userId_false userId (fun r => { r with rating := rating, feedback := match fb with | some f2 => some f2 | none => r.feedback, createdAt := now }) base hbase]
    simp [he, mergeCall]
  rw [hmap]

theorem applyRatings_loop (userId : Nat) :
    ∀ (calls : List RateCall) (s : Session) (base : List RatingEntry) (e : RatingEntry),
      s.status = Status.completed →
      s.participants.any (fun p => p.userId == userId) = true →
      (∀ r ∈ base, (r.userId == userId) = false) →
      e.userId = userId →
      s.ratings = base ++ [e] →
      s.averageRating = avgRating s.ratings →
      (∀ c ∈ calls, 1 ≤ c.rating ∧ c.rating ≤ 5) →
      applyRatings s userId calls =
        { s with ratings := base ++ [runEntry userId e calls], averageRating := avgRating (base ++ [runEntry userId e calls]) } := by
  intro calls
  induction calls with
  | nil =>
    intro s base e hst hp hbase he hr havg hv
    show s = { s with ratings := base ++ [e], averageRating := avgRating (base ++ [e]) }
    rw [← hr, ← havg]
  | cons c cs ih =>
    intro s base e hst hp hbase he hr havg hv
    have hv1 := hv c (List.mem_cons_self c cs)
    have hstep := rateSession_step s userId c.rating c.feedback c.time base e hv1.1 hv1.2 hst hp hbase he hr
    show applyRatings ((rateSession s userId c.rating c.feedback c.time).session) userId cs =
      { s with ratings := base ++ [runEntry userId e (c :: cs)], averageRating := avgRating (base ++ [runEntry userId e (c :: cs)]) }
    rw [hstep]
    exact ih ({ s with ratings := base ++ [mergeCall userId e { rating := c.rating, feedback := c.feedback, time := c.time }], averageRating := avgRating (base ++ [mergeCall userId e { rating := c.rating, feedback := c.feedback, time := c.time }]) }) base (mergeCall userId e { rating := c.rating, feedback := c.feedback, time := c.time }) hst hp hbase rfl rfl rfl (fun x hx => hv x (List.mem_cons_of_mem c hx))

theorem runEntry_fields (userId : Nat) :
    ∀ (cs : List RateCall) (e : RatingEntry), e.userId = userId →
      (runEntry userId e cs).userId = userId ∧
      (runEntry userId e cs).rating = cs.foldl (fun _ x => x.rating) e.rating ∧
      (runEntry userId e cs).createdAt = cs.foldl (fun _ x => x.time) e.createdAt ∧
      (runEntry userId e cs).feedback = lastProvidedFeedback e.feedback cs := by
  intro cs
  induction cs with
  | nil => intro e he; exact ⟨he, rfl, rfl, rfl⟩
  | cons c cs2 ih =>
    intro e he
    exact ih (mergeCall userId e c) rfl

theorem foldl_pick_last {β : Type} (f : RateCall → β) :
    ∀ (cs : List RateCall) (b : β),
      cs.foldl (fun _ x => f x) b = (match cs.getLast? with | some z => f z | none => b) := by
  intro cs
  induction cs with
  | nil => intro b; rfl
  | cons c cs2 ih =>
    intro b
    show cs2.foldl (fun _ x => f x) (f c) = _
    rw [ih (f c)]
    cases cs2 with
    | nil => rfl
    | cons d ds => rfl

theorem pickLast_cons {β : Type} (f : RateCall → β) (c : RateCall) (cs : List RateCall)
    (h : c :: cs ≠ []) :
    (match cs.getLast? with | some z => f z | none => f c) = f ((c :: cs).getLast h) := by
  cases cs with
  | nil => rfl
  | cons d ds =>
    rw [List.getLast?_eq_getLast (d :: ds) (by simp)]
    have hgl : (c :: d :: ds).getLast h = (d :: ds).getLast (by simp) := by
      rw [List.getLast_cons]
    rw [hgl]

/-- C4 counterexample: rating 5 with feedback "great" and then re-rating 3
with no feedback leaves one entry whose rating and timestamp come from the
second call but whose feedback is still "great" — not the feedback of the
most recent call, which provided none. -/
theorem rating_feedback_counterexample :
    ((rateSession (rateSession completedSession 7 5 (some ("great")) 100).session 7 3 none 200).session).ratings =
      [{ userId := 7, rating := 3, feedback := some ("great"), createdAt := 200 }] ∧
    ((rateSession (rateSession completedSession 7 5 (some ("great")) 100).session 7 3 none 200).session).ratings.map RatingEntry.feedback ≠ [none] := by
  constructor
  · decide
  · decide

/-- C4 as amended: replaying any non-empty sequence of valid rate calls by
one user on a completed session the user participated in and had not rated
yet leaves exactly one rating entry for that user; its rating value and
timestamp are those of the most recent call, while its feedback is the most
recently *provided* feedback (a call without feedback keeps the previous
one); and the stored average always equals the one-decimal mean of the
current entries. -/
theorem rating_resubmission_overwrites (s : Session) (userId : Nat) (calls : List RateCall)
    (hst : s.status = Status.completed)
    (hp : s.participants.any (fun p => p.userId == userId) = true)
    (hnew : ∀ r ∈ s.ratings, (r.userId == userId) = false)
    (hvalid : ∀ c ∈ calls, 1 ≤ c.rating ∧ c.rating ≤ 5)
    (hne : calls ≠ []) :
    (applyRatings s userId calls).ratings =
      s.ratings ++ [{ userId := userId, rating := (calls.getLast hne).rating, feedback := lastProvidedFeedback none calls, createdAt := (calls.getLast hne).time }] ∧
    ((applyRatings s userId calls).ratings.filter (fun r => r.userId == userId)).length = 1 ∧
    (applyRatings s userId calls).averageRating = avgRating ((applyRatings s userId calls).ratings) := by
  cases calls with
  | nil => exact absurd rfl hne
  | cons c cs =>
    have hv1 := hvalid c (List.mem_cons_self c cs)
    have hnone : s.ratings.any (fun r => r.userId == userId) = false :=
      List.any_eq_false.mpr (fun r hr2 => by simp [hnew r hr2])
    have hs1 := rateSession_not_rated s userId c.rating c.feedback c.time hv1.1 hv1.2 hst hp hnone
    have hfinal : applyRatings s userId (c :: cs) =
        { s with ratings := s.ratings ++ [runEntry userId { userId := userId, rating := c.rating, feedback := c.feedback, createdAt := c.time } cs], averageRating := avgRating (s.ratings ++ [runEntry userId { userId := userId, rating := c.rating, feedback := c.feedback, createdAt := c.time } cs]) } := by
      show applyRatings ((rateSession s userId c.rating c.feedback c.time).session) userId cs = _
      rw [hs1]
      exact applyRatings_loop userId cs ({ s with ratings := s.ratings ++ [{ userId := userId, rating := c.rating, feedback := c.feedback, createdAt := c.time }], averageRating := avgRating (s.ratings ++ [{ userId := userId, rating := c.rating, feedback := c.feedback, createdAt := c.time }]) }) s.ratings ({ userId := userId, rating := c.rating, feedback := c.feedback, createdAt := c.time }) hst hp hnew rfl rfl rfl (fun x hx => hvalid x (List.mem_cons_of_mem c hx))
    obtain ⟨h1, h2, h3, h4⟩ := runEntry_fields userId cs
      { userId := userId, rating := c.rating, feedback := c.feedback, createdAt := c.time } rfl
    have hrat : (runEntry userId { userId := userId, rating := c.rating, feedback := c.feedback, createdAt := c.time } cs).rating = ((c :: cs).getLast hne).rating := by
      rw [h2, foldl_pick_last (fun x => x.rating) cs]
      exact pickLast_cons (fun x => x.rating) c cs hne
    have htime : (runEntry userId { userId := userId, rating := c.rating, feedback := c.feedback, createdAt := c.time } cs).createdAt = ((c :: cs).getLast hne).time := by
      rw [h3, foldl_pick_last (fun x => x.time) cs]
      exact pickLast_cons (fun x => x.time) c cs hne
    have hopt : (match c.feedback with | some f2 => some f2 | none => (none : Option String)) = c.feedback := by
      cases c.feedback <;> rfl
    have hfb : (runEntry userId { userId := userId, rating := c.rating, feedback := c.feedback, createdAt := c.time } cs).feedback = lastProvidedFeedback none (c :: cs) := by
      rw [h4]
      show lastProvidedFeedback c.feedback cs = lastProvidedFeedback none (c :: cs)
      rw [show lastProvidedFeedback none (c :: cs) = lastProvidedFeedback (match c.feedback with | some f2 => some f2 | none => (none : Option String)) cs from rfl, hopt]
    have hre : runEntry userId { userId := userId, rating := c.rating, feedback := c.feedback, createdAt := c.time } cs = { userId := userId, rating := ((c :: cs).getLast hne).rating, feedback := lastProvidedFeedback none (c :: cs), createdAt := ((c :: cs).getLast hne).time } := by
      rcases hE : runEntry userId { userId := userId, rating := c.rating, feedback := c.feedback, createdAt := c.time } cs with ⟨a, b, fb2, d⟩
      rw [hE] at h1 hrat hfb htime
      rw [RatingEntry.mk.injEq]
      exact ⟨h1, hrat, hfb, htime⟩
    refine ⟨?_, ?_, ?_⟩
    · rw [hfinal]
      show s.ratings ++ [runEntry userId { userId := userId, rating := c.rating, feedback := c.feedback, createdAt := c.time } cs] = _
      rw [hre]
    · rw [hfinal]
      show (List.filter (fun r => r.userId == userId) (s.ratings ++ [runEntry userId { userId := userId, rating := c.rating, feedback := c.feedback, createdAt := c.time } cs])).length = 1
      rw [List.filter_append, List.filter_eq_nil_iff.mpr (fun r hr2 => by simp [hnew r hr2]), hre]
      simp [List.filter]
    · rw [hfinal]

/-- Witness for C4 (amended): two concrete calls (5 with feedback, then 3
without) leave exactly one entry carrying rating 3, timestamp 200 and the
earlier feedback. -/
theorem rating_resubmission_witness :
    (applyRatings completedSession 7 [{ rating := 5, feedback := some ("great"), time := 100 }, { rating := 3, feedback := none, time := 200 }]).ratings =
      [{ userId := 7, rating := 3, feedback := some ("great"), createdAt := 200 }] ∧
    ((applyRatings completedSession 7 [{ rating := 5, feedback := some ("great"), time := 100 }, { rating := 3, feedback := none, time := 200 }]).ratings.filter (fun r => r.userId == 7)).length = 1 := by
  have h := rating_resubmission_overwrites completedSession 7
    [{ rating := 5, feedback := some ("great"), time := 100 }, { rating := 3, feedback := none, time := 200 }]
    rfl (by decide) (by decide) (by decide) (by decide)
  constructor
  · rw [h.1]
    rfl
  · exact h.2.1


end Fitstream
